import Mathlib

/-!
Verification development for the `fileclip` repository: a shallow embedding
of the path translator (`file_clip.translate_path`, `file_clip.validate_path`),
the requester coordination logic (`file_clip.copy_files`, `file_clip.check_watcher`),
the watcher dispatch pipeline (`fileclip_watcher.process_file`,
`fileclip_watcher.FileclipHandler`) and the CLI driver (`main.collect_files`,
`main.main`), together with theorems about the properties the design claims.

Python strings are modelled as Lean `String` with character-level list
operations (so that every definition evaluates by kernel reduction).
Filesystem and subprocess effects are modelled by explicit oracle functions
and outcome data, and stateful code by explicit state passing.
-/

namespace Fileclip

/-! ## Python string primitives -/

/-- Model of Python `s.startswith(pre)`: `pre` is a character-level prefix of `s`. -/
def pyStartswith (s pre : String) : Bool :=
  pre.toList.isPrefixOf s.toList

/-- Model of Python `s.endswith(suf)`: `suf` is a character-level suffix of `s`. -/
def pyEndswith (s suf : String) : Bool :=
  suf.toList.reverse.isPrefixOf s.toList.reverse

/-- Split a character list on a separator character, Python `str.split(sep)` style:
`"/a/b"` splits into `["", "a", "b"]`. -/
def splitOnChar (sep : Char) : List Char → List (List Char)
  | [] => [[]]
  | c :: cs =>
    let r := splitOnChar sep cs
    if c = sep then [] :: r
    else
      match r with
      | [] => [[c]]
      | g :: gs => (c :: g) :: gs

/-- Join character-list segments with a separator character. -/
def joinWithChar (sep : Char) : List (List Char) → List Char
  | [] => []
  | [g] => g
  | g :: gs => g ++ sep :: joinWithChar sep gs

/-! ## Path model

`Path.resolve()` and `str(Path(...))` are modelled for absolute, symlink-free
POSIX paths, which is the setting of every claim (a relative input would be
resolved against the process working directory, which the pure model does not
carry). -/

/-- Normalise path segments for `Path.resolve()`: drop empty and `.` segments,
and let `..` remove the previous segment (staying at the root when there is
none, as `Path("/..").resolve()` does). The accumulator holds the segments
seen so far, in reverse. -/
def resolveSegs (acc : List (List Char)) : List (List Char) → List (List Char)
  | [] => acc.reverse
  | s :: rest =>
    if s = [] ∨ s = ['.'] then resolveSegs acc rest
    else if s = ['.', '.'] then resolveSegs acc.tail rest
    else resolveSegs (s :: acc) rest

/-- Model of Python `str(Path(p).resolve())` for an absolute, symlink-free
POSIX path `p`. -/
def resolvePath (p : String) : String :=
  let segs := resolveSegs [] (splitOnChar '/' p.toList)
  ('/' :: joinWithChar '/' segs).asString

/-- Model of Python `str(Path(p))` (pathlib's pure normalisation): duplicate
slashes and `.` segments are dropped, `..` segments are kept. -/
def pathlibNorm (p : String) : String :=
  let cs := p.toList
  let segs := (splitOnChar '/' cs).filter (fun s => ¬(s = [] ∨ s = ['.']))
  let isAbs : Bool := match cs with | '/' :: _ => true | _ => false
  if isAbs then ('/' :: joinWithChar '/' segs).asString
  else if segs = [] then "." else (joinWithChar '/' segs).asString

/-! ## Path translator (`file_clip.py`, `translate_path` / `validate_path`) -/

/-- Model of `translate_path(container_path, container_workspace, host_workspace)`.
`Except.error` is the `ValueError` the Python code raises when the resolved
path does not pass the `startswith` check against the resolved workspace root.
Slicing `container_path[len(container_workspace):]` is character-count based,
`lstrip('/\\')` drops leading slashes and backslashes, `replace('/', '\\')`
is a character-wise substitution, and `rstrip('\\')` drops trailing
backslashes from the host root. -/
def translate_path (container_path container_workspace host_workspace : String) :
    Except String String :=
  let cp := resolvePath container_path
  let cw := resolvePath container_workspace
  if pyStartswith cp cw then
    let rel := (cp.toList.drop cw.toList.length).dropWhile (fun c => c = '/' ∨ c = '\\')
    let rel := rel.map (fun c => if c = '/' then '\\' else c)
    let hw := host_workspace.toList.map (fun c => if c = '/' then '\\' else c)
    let hw := (hw.reverse.dropWhile (fun c => c = '\\')).reverse
    Except.ok (hw ++ '\\' :: rel).asString
  else
    Except.error ("Path " ++ cp ++ " is not under " ++ cw)

/-- Model of `validate_path(path, container_workspace)`: resolve both and test
the same `startswith` containment condition, returning a boolean. -/
def validate_path (path container_workspace : String) : Bool :=
  pyStartswith (resolvePath path) (resolvePath container_workspace)

/-- The spec's notion of path containment, stated from its words: the resolved
input is a descendant of the resolved root (equal to it, or strictly below it
past a `/` separator). Used to compare the code's check against the spec. -/
def isDescendantOf (p root : String) : Bool :=
  p = root || pyStartswith p (root ++ "/")

end Fileclip

namespace Fileclip

/-! ## Mailbox filenames and the watcher's creation-event filter
(`fileclip_watcher.py`, `FileclipHandler` / `write_result`) -/

/-- Request filename for a request id, as written by `check_watcher` and
`write_fileclip_json`: `fileclip_<id>.json`. -/
def requestFileName (id : String) : String := "fileclip_" ++ id ++ ".json"

/-- Result filename for a request id, as written by `write_result`:
`fileclip_results_<id>.json`. -/
def resultFileName (id : String) : String := "fileclip_results_" ++ id ++ ".json"

/-- fnmatch of the handler's pattern `fileclip_*.json` against a file name:
`name = "fileclip_" ++ mid ++ ".json"` for some (possibly empty) `mid`, i.e.
the name starts with `fileclip_` (9 characters) and the rest ends in `.json`. -/
def fnmatchFileclipJson (name : String) : Bool :=
  pyStartswith name "fileclip_" && pyEndswith (name.toList.drop 9).asString ".json"

/-- Model of pathlib's `Path(name).suffix` for a bare file name: the part from
the last `.` on, unless that `.` is the first or the last character. -/
def pySuffix (name : String) : String :=
  let cs := name.toList
  match (cs.enum.filter (fun q => q.2 == '.')).getLast? with
  | none => ""
  | some (i, _) => if 0 < i ∧ i < cs.length - 1 then (cs.drop i).asString else ""

/-- The watcher's complete creation-event filter for a file name: the
`PatternMatchingEventHandler` pattern `fileclip_*.json`, conjoined with
`on_created`'s explicit `name.startswith("fileclip_")` and
`suffix == ".json"` checks. -/
def watcherAcceptsName (name : String) : Bool :=
  fnmatchFileclipJson name && (pyStartswith name "fileclip_" && pySuffix name == ".json")

/-! ## Watcher request processing (`fileclip_watcher.py`, `process_file`)

The JSON file read, the nested `copy_files(..., use_watcher=False)` call and
the filesystem are modelled by explicit outcome data and oracle functions;
`process_file` is embedded as a pure function from those to the ordered trace
of mailbox effects (result-file writes and request-file deletions) together
with the result record each write carries. -/

/-- Python truthiness of a JSON string field that may be absent (`None`) or
empty, as tested by `if not request_id or not sender`. -/
def pyTruthy : Option String → Bool
  | none => false
  | some s => s ≠ ""

/-- Python `f"...{x}..."` rendering of a possibly-`None` string value. -/
def pyStr : Option String → String
  | none => "None"
  | some s => s

/-- The request record as parsed from a `fileclip_<uuid>.json` file:
`data.get` of each field (absent keys give `None`). -/
structure RequestMsg where
  request_id : Option String
  sender : Option String
  action : Option String
  paths : List String
deriving DecidableEq

/-- Outcome of reading and JSON-decoding the request file: a decode failure
(`json.JSONDecodeError`), some other exception (the generic `except` branch),
or a parsed record. -/
inductive ParseOutcome where
  | jsonError
  | readError (msg : String)
  | ok (m : RequestMsg)
deriving DecidableEq

/-- Outcome of the watcher's nested `copy_files(valid_paths, use_watcher=False)`
call: a returned boolean, or a raised exception rendered as `str(e)`. -/
inductive CopyOutcome where
  | ret (b : Bool)
  | exn (msg : String)
deriving DecidableEq

/-- The result record written into `fileclip_results_<id>.json`. -/
structure ResultMsg where
  sender : Option String
  request_id : Option String
  success : Bool
  message : String
  errors : List String
deriving DecidableEq

/-- One mailbox effect of `process_file`: writing the result file named by
`fileId` (`write_result`), or deleting the processed request file
(`file_path.unlink(missing_ok=True)`). -/
inductive WEvent where
  | writeResult (fileId : String) (r : ResultMsg)
  | deleteRequest
deriving DecidableEq

/-- Model of `process_file(file_path, shared_dir)`: given the filesystem's
`is_file` oracle `fs` (applied to `str(Path(path))` of each listed path), the
outcome oracle `copyRun` for the nested `copy_files` call on the valid subset,
and the parse outcome of the request file, produce the ordered trace of
mailbox effects. Each branch of the Python function calls `write_result` and
then unlinks the request file. -/
def process_file (fs : String → Bool) (copyRun : List String → CopyOutcome) :
    ParseOutcome → List WEvent
  | .jsonError =>
    [.writeResult "unknown"
      ⟨some "unknown", some "unknown", false, "Invalid JSON", []⟩, .deleteRequest]
  | .readError e =>
    [.writeResult "unknown"
      ⟨some "unknown", some "unknown", false, "Error: " ++ e, []⟩, .deleteRequest]
  | .ok m =>
    if ¬ pyTruthy m.request_id ∨ ¬ pyTruthy m.sender then
      [.writeResult (pyStr m.request_id)
        ⟨m.sender, m.request_id, false, "Missing request_id or sender", []⟩, .deleteRequest]
    else if m.action = some "ping" then
      [.writeResult (pyStr m.request_id)
        ⟨m.sender, m.request_id, true, "Ping acknowledged", []⟩, .deleteRequest]
    else if m.action = some "copy_files" then
      let valid := (m.paths.filter (fun p => fs (pathlibNorm p))).map pathlibNorm
      let errs := (m.paths.filter (fun p => ¬ fs (pathlibNorm p))).map
        (fun p => "Invalid or inaccessible path: " ++ p)
      if valid = [] then
        [.writeResult (pyStr m.request_id)
          ⟨m.sender, m.request_id, false, "No valid files to copy", errs⟩, .deleteRequest]
      else
        match copyRun valid with
        | .ret b =>
          [.writeResult (pyStr m.request_id)
            ⟨m.sender, m.request_id, b,
              if b then "Copied " ++ toString valid.length ++ " file(s)"
              else "Failed to copy files",
              errs⟩, .deleteRequest]
        | .exn e =>
          [.writeResult (pyStr m.request_id)
            ⟨m.sender, m.request_id, false, "Failed to copy files: " ++ e,
              errs ++ [e]⟩, .deleteRequest]
    else
      [.writeResult (pyStr m.request_id)
        ⟨m.sender, m.request_id, false, "Unknown action: " ++ pyStr m.action, []⟩,
        .deleteRequest]

/-! ## Requester coordination (`file_clip.py`, `copy_files` / `check_watcher`)

Environment variables, the filesystem, the watcher probe, the result wait and
the direct clipboard write are modelled as explicit data and oracle
functions; `copy_files` becomes a pure function from those to an `Except`
outcome (the raised `FileNotFoundError`/`ValueError`, or the returned
boolean) paired with the trace of `_copy_files_direct` invocations. -/

/-- A Python exception `copy_files` or `collect_files` can raise. -/
inductive PyError where
  | fileNotFound (msg : String)
  | valueError (msg : String)
deriving DecidableEq

/-- The environment `copy_files` reads: container detection
(`is_container()`), the two workspace-root variables (absent keys are
`none`), and the resolved boolean value of `FILECLIP_USE_WATCHER` with its
container-dependent default. -/
structure Env where
  is_container : Bool
  container_workspace : Option String
  host_workspace : Option String
  use_watcher_env : Bool
deriving DecidableEq

/-- Outcome of `wait_for_results`: a result file appeared and was consumed
(carrying its `success`, `message` and `errors` fields), or the overall
timeout expired, in which case the returned dict has `success = False`. -/
inductive WaitOutcome where
  | result (success : Bool) (message : String) (errors : List String)
  | timeout
deriving DecidableEq

/-- `results.get("success", False)` on the dict `wait_for_results` returned. -/
def waitSuccess : WaitOutcome → Bool
  | .result b _ _ => b
  | .timeout => false

/-- The path-validation loop at the top of `copy_files`: resolve each path
and require it to be an existing regular file (`fs` is the filesystem's
`is_file` oracle on resolved paths), raising `FileNotFoundError` at the first
failure; on success the accumulated `valid_paths` are the resolved strings in
input order. -/
def resolveAll (fs : String → Bool) : List String → Except PyError (List String)
  | [] => Except.ok []
  | p :: rest =>
    if fs (resolvePath p) then
      (resolveAll fs rest).map (fun l => resolvePath p :: l)
    else
      Except.error (.fileNotFound ("File not found or not a file: " ++ p))

/-- The validate-and-translate loop of `copy_files`' watcher branch: each
path must pass `validate_path` (else `ValueError`), then `translate_path`
runs on it (its own `ValueError` propagating). -/
def translateAll (cw hw : String) : List String → Except PyError (List String)
  | [] => Except.ok []
  | p :: rest =>
    if ¬ validate_path p cw then
      Except.error (.valueError ("Path " ++ p ++ " is not under " ++ cw))
    else
      match translate_path p cw hw with
      | .error e => Except.error (.valueError e)
      | .ok t => (translateAll cw hw rest).map (fun l => t :: l)

/-- Model of `copy_files(file_paths, use_watcher, watcher_timeout)`.
Parameters: the environment, the `is_file` oracle, the boolean outcome of the
`check_watcher` liveness probe, the `wait_for_results` outcome, the outcome
oracle for `_copy_files_direct`, the input paths and the `use_watcher`
argument (`none` is Python's `None`, defaulted from the environment).
The value is the raised exception or the returned boolean, paired with the
trace of `_copy_files_direct` invocations (each entry its path-list
argument). -/
def copy_files (env : Env) (fs : String → Bool) (checkW : Bool)
    (wait : WaitOutcome) (directWrite : List String → Bool)
    (file_paths : List String) (use_watcher_arg : Option Bool) :
    Except PyError (Bool × List (List String)) :=
  match resolveAll fs file_paths with
  | .error e => Except.error e
  | .ok valid_paths =>
    if valid_paths = [] then Except.ok (false, [])
    else
      let use_watcher := use_watcher_arg.getD env.use_watcher_env
      if env.is_container && use_watcher then
        if ¬ (pyTruthy env.container_workspace && pyTruthy env.host_workspace) then
          Except.error (.valueError
            "FILECLIP_CONTAINER_WORKSPACE and FILECLIP_HOST_WORKSPACE must be set for watcher mode")
        else
          let cw := env.container_workspace.getD ""
          let hw := env.host_workspace.getD ""
          match translateAll cw hw valid_paths with
          | .error e => Except.error e
          | .ok _translated =>
            if ¬ checkW then
              Except.ok (directWrite valid_paths, [valid_paths])
            else if waitSuccess wait then
              Except.ok (true, [])
            else
              Except.ok (directWrite valid_paths, [valid_paths])
      else
        Except.ok (directWrite valid_paths, [valid_paths])

/-! ## Liveness probe cleanup (`file_clip.py`, `check_watcher`) -/

/-- How one run of `check_watcher`'s `try` body can play out: an `OSError`
while creating the mailbox directory or writing the ping file (the file may
or may not have been created by then), the watcher deleting the ping file
within the probe timeout, the poll loop timing out with the file still
present, or an `OSError` raised while polling after the file was written. -/
inductive ProbeOutcome where
  | writeError (fileCreated : Bool)
  | consumed
  | timedOut
  | pollError
deriving DecidableEq

/-- What `check_watcher` leaves behind: its boolean return value and whether
the ping request file still exists in the mailbox directory afterwards. -/
structure ProbeResult where
  returns : Bool
  pingFileOnDisk : Bool
deriving DecidableEq

/-- `Path.unlink(missing_ok=True)` on the ping file: afterwards the file does
not exist, whether or not it did before. -/
def unlinkMissingOk (_existsBefore : Bool) : Bool := false

/-- Model of `check_watcher(shared_dir, timeout)`: the `try` body yields the
return value and the ping file's existence at that point; the `finally`
clause then unlinks the ping file with `missing_ok=True`. -/
def check_watcher (o : ProbeOutcome) : ProbeResult :=
  let afterTry : Bool × Bool :=
    match o with
    | .writeError created => (false, created)
    | .consumed => (true, false)
    | .timedOut => (false, true)
    | .pollError => (false, true)
  ⟨afterTry.1, unlinkMissingOk afterTry.2⟩

/-! ## CLI driver (`main.py`, `collect_files` / `main`) -/

/-- The filesystem view `collect_files` consults: existence, regular-file and
directory tests on the given path strings, and `rglob("*")`'s resolved file
members for a directory, in traversal order. -/
structure FSModel where
  pathExists : String → Bool
  isFile : String → Bool
  isDir : String → Bool
  rglobFiles : String → List String

/-- Model of `collect_files(paths)`: raise `FileNotFoundError` at the first
path that does not exist (the message renders `Path(path)`); append the
resolved path for a regular file, the recursive file members for a
directory, and nothing for anything else. -/
def collect_files (fsm : FSModel) : List String → Except PyError (List String)
  | [] => Except.ok []
  | p :: rest =>
    if ¬ fsm.pathExists p then
      Except.error (.fileNotFound ("Path " ++ pathlibNorm p ++ " does not exist"))
    else
      let here :=
        if fsm.isFile p then [resolvePath p]
        else if fsm.isDir p then fsm.rglobFiles p
        else []
      (collect_files fsm rest).map (fun l => here ++ l)

/-- Outcome of the CLI's `copy_files(files, ...)` call: a returned boolean or
one of the exception kinds `main` catches. -/
inductive CopyCallOutcome where
  | ret (b : Bool)
  | raisesFNF (msg : String)
  | raisesRT (msg : String)
  | raisesVE (msg : String)
deriving DecidableEq

/-- Model of `main()`'s exit status: 1 when no paths are given, when
`collect_files` raises or returns no files, when `copy_files` raises a
caught exception or returns `False`; 0 when `copy_files` returns `True`. -/
def cliMain (fsm : FSModel) (copyCall : List String → CopyCallOutcome)
    (argPaths : List String) : Nat :=
  if argPaths = [] then 1
  else
    match collect_files fsm argPaths with
    | .error _ => 1
    | .ok files =>
      if files = [] then 1
      else
        match copyCall files with
        | .ret true => 0
        | .ret false => 1
        | .raisesFNF _ => 1
        | .raisesRT _ => 1
        | .raisesVE _ => 1

/-- C6: with container root `/workspace` and host root `C:\Users\me\dev`,
`translate_path` maps `/workspace/sub/file.txt` to exactly
`C:\Users\me\dev\sub\file.txt`, and fails with the out-of-scope `ValueError`
on `/etc/file.txt`. -/
theorem translate_path_example_and_out_of_scope :
    translate_path "/workspace/sub/file.txt" "/workspace" "C:\\Users\\me\\dev"
      = Except.ok "C:\\Users\\me\\dev\\sub\\file.txt" ∧
    translate_path "/etc/file.txt" "/workspace" "C:\\Users\\me\\dev"
      = Except.error "Path /etc/file.txt is not under /workspace" :=
  ⟨rfl, rfl⟩

/-- C7: for every path, source root and target root, `validate_path` returns
`true` exactly when `translate_path` on the same path and source root succeeds
(does not raise the out-of-scope error): both perform the same resolved
`startswith` containment check. -/
theorem validate_path_iff_translate_path_ok
    (p w h : String) :
    validate_path p w = true ↔ ∃ t, translate_path p w h = Except.ok t := by
  unfold validate_path translate_path
  by_cases hc : pyStartswith (resolvePath p) (resolvePath w) = true
  · simp [hc]
  · simp [hc]

/-- C7 witness: the equivalence applied at a concrete in-scope path. -/
theorem validate_path_iff_translate_path_ok_witness :
    validate_path "/ws/a.txt" "/ws" = true :=
  (validate_path_iff_translate_path_ok "/ws/a.txt" "/ws" "C:\\dev").mpr
    ⟨"C:\\dev\\a.txt", rfl⟩

/-- C2: the code's containment check is a raw string-prefix test, not a
descendant test. At the concrete input `/workspace2/file` with source root
`/workspace`, the resolved path is not a descendant of the resolved root, yet
`translate_path` does not raise the out-of-scope error: it returns a
translated path, contradicting its own docstring ("Raises ValueError: If path
is not under container_workspace"). -/
theorem translate_path_accepts_sibling_of_root :
    isDescendantOf (resolvePath "/workspace2/file") (resolvePath "/workspace") = false ∧
    translate_path "/workspace2/file" "/workspace" "C:\\host"
      = Except.ok "C:\\host\\2\\file" :=
  ⟨by decide, rfl⟩

/-- C1: the watcher's creation-event filter accepts the request filename for
a request id, but it also accepts the result filename written for that same
id: `fileclip_results_<id>.json` starts with `fileclip_`, matches
`fileclip_*.json` and has suffix `.json`. The claim that no result filename
passes the watcher's request-file filter is false at id `ab12`: the watcher
cannot tell its own result files apart from request files by name. -/
theorem watcher_filter_accepts_result_file :
    watcherAcceptsName (requestFileName "ab12") = true ∧
    watcherAcceptsName (resultFileName "ab12") = true := by
  constructor <;> decide

/-- C4: for every parse outcome of a request file (decode failure, read
error, missing `sender`/`request_id`, ping, `copy_files` in all its
sub-outcomes, unknown action), every filesystem and every outcome of the
nested copy call, `process_file`'s effect trace is exactly one result-file
write followed by the request-file deletion: the result is written before the
request file is deleted, and the request file is deleted in every branch. -/
theorem process_file_writes_result_then_deletes
    (fs : String → Bool) (copyRun : List String → CopyOutcome)
    (po : ParseOutcome) :
    ∃ id r, process_file fs copyRun po = [.writeResult id r, .deleteRequest] := by
  cases po with
  | jsonError => exact ⟨_, _, rfl⟩
  | readError e => exact ⟨_, _, rfl⟩
  | ok m =>
    simp only [process_file]
    repeat' split
    all_goals exact ⟨_, _, rfl⟩

/-- C5: a `copy_files` request listing two paths the filesystem reports as
regular files and one it does not, whose direct clipboard write of the two
valid files returns success, produces a result record with `success = true`,
a message naming 2 copied files, and exactly one diagnostic for the missing
path in `errors` — written before the request file is deleted. -/
theorem process_file_mixed_batch_result
    (fs : String → Bool) (copyRun : List String → CopyOutcome)
    (p1 p2 p3 rid snd : String)
    (h1 : fs (pathlibNorm p1) = true) (h2 : fs (pathlibNorm p2) = true)
    (h3 : fs (pathlibNorm p3) = false)
    (hc : copyRun [pathlibNorm p1, pathlibNorm p2] = .ret true)
    (hr : rid ≠ "") (hs : snd ≠ "") :
    process_file fs copyRun (.ok ⟨some rid, some snd, some "copy_files", [p1, p2, p3]⟩)
      = [.writeResult rid
          ⟨some snd, some rid, true, "Copied 2 file(s)",
            ["Invalid or inaccessible path: " ++ p3]⟩, .deleteRequest] := by
  unfold process_file
  simp [pyTruthy, pyStr, hr, hs, h1, h2, h3, hc, List.filter]
  all_goals decide

/-- C5 witness: the mixed-batch theorem applied at the concrete request
`["/a", "/b", "/miss"]` against a filesystem containing exactly `/a` and
`/b`, with a direct write that succeeds. -/
theorem process_file_mixed_batch_result_witness :
    process_file (fun s => s == "/a" || s == "/b") (fun _ => .ret true)
      (.ok ⟨some "id1", some "s1", some "copy_files", ["/a", "/b", "/miss"]⟩)
      = [.writeResult "id1"
          ⟨some "s1", some "id1", true, "Copied 2 file(s)",
            ["Invalid or inaccessible path: /miss"]⟩, .deleteRequest] :=
  process_file_mixed_batch_result (fun s => s == "/a" || s == "/b") (fun _ => .ret true)
    "/a" "/b" "/miss" "id1" "s1" (by decide) (by decide) (by decide) rfl
    (by decide) (by decide)

/-- Helper: when a path passes `validate_path` against a workspace root,
`translate_path` on the same pair succeeds, since both test the same resolved
`startswith` condition. -/
theorem translate_path_ok_of_validate (p w h : String)
    (hv : validate_path p w = true) :
    ∃ t, translate_path p w h = Except.ok t := by
  unfold validate_path at hv
  unfold translate_path
  simp [hv]

/-- Helper: when every input path resolves to an existing regular file, the
validation loop of `copy_files` succeeds and `valid_paths` is the list of
resolved paths in input order. -/
theorem resolveAll_of_all_files (fs : String → Bool) (l : List String)
    (h : ∀ p ∈ l, fs (resolvePath p) = true) :
    resolveAll fs l = Except.ok (l.map resolvePath) := by
  induction l with
  | nil => rfl
  | cons q rest ih =>
    simp only [resolveAll, h q (List.mem_cons_self q rest), if_true]
    rw [ih (fun p hp => h p (List.mem_cons_of_mem q hp))]
    rfl

/-- Helper: when every path passes `validate_path`, the validate-and-translate
loop of `copy_files`' watcher branch raises no error. -/
theorem translateAll_ok_of_validate (cw hw : String) (l : List String)
    (h : ∀ p ∈ l, validate_path p cw = true) :
    ∃ ts, translateAll cw hw l = Except.ok ts := by
  induction l with
  | nil => exact ⟨[], rfl⟩
  | cons q rest ih =>
    obtain ⟨ts, hts⟩ := ih (fun p hp => h p (List.mem_cons_of_mem q hp))
    have hq := h q (List.mem_cons_self q rest)
    obtain ⟨t, ht⟩ := translate_path_ok_of_validate q cw hw hq
    refine ⟨t :: ts, ?_⟩
    simp only [translateAll, hq, ht, hts]
    rfl

/-- C3: with watcher mode engaged (container detected, watcher requested,
both workspace roots configured) on a nonempty list of existing regular files
that are all inside the container workspace, if the watcher never responds —
the liveness probe fails, or the overall wait times out — then `copy_files`
returns the direct clipboard write's boolean outcome on the original
untranslated (resolved, not host-mapped) paths, invoking it exactly once, and
raises no error. -/
theorem copy_files_falls_back_on_unresponsive_watcher
    (env : Env) (fs : String → Bool) (checkW : Bool) (wait : WaitOutcome)
    (directWrite : List String → Bool) (file_paths : List String) (uw : Option Bool)
    (hne : file_paths ≠ [])
    (hfile : ∀ p ∈ file_paths, fs (resolvePath p) = true)
    (hcont : env.is_container = true)
    (huw : uw.getD env.use_watcher_env = true)
    (hcw : pyTruthy env.container_workspace = true)
    (hhw : pyTruthy env.host_workspace = true)
    (hscope : ∀ p ∈ file_paths.map resolvePath,
      validate_path p (env.container_workspace.getD "") = true)
    (hdead : checkW = false ∨ wait = WaitOutcome.timeout) :
    copy_files env fs checkW wait directWrite file_paths uw
      = Except.ok (directWrite (file_paths.map resolvePath),
          [file_paths.map resolvePath]) := by
  unfold copy_files
  rw [resolveAll_of_all_files fs file_paths hfile]
  have hmapne : file_paths.map resolvePath ≠ [] := by
    simpa using hne
  obtain ⟨ts, hts⟩ := translateAll_ok_of_validate (env.container_workspace.getD "")
    (env.host_workspace.getD "") (file_paths.map resolvePath) hscope
  rcases hdead with hcw0 | hwt
  · subst hcw0
    simp [hmapne, hcont, huw, hcw, hhw, hts]
  · subst hwt
    cases checkW <;> simp [hmapne, hcont, huw, hcw, hhw, hts, waitSuccess]

/-- C3 witness: fallback applied concretely — container env with both roots
set, one in-scope file, dead watcher probe, direct write returning `true`. -/
theorem copy_files_falls_back_witness :
    copy_files ⟨true, some "/ws", some "C:\\dev", true⟩ (fun _ => true) false
      WaitOutcome.timeout (fun _ => true) ["/ws/a.txt"] (some true)
      = Except.ok (true, [["/ws/a.txt"]]) := by
  have h := copy_files_falls_back_on_unresponsive_watcher
    ⟨true, some "/ws", some "C:\\dev", true⟩ (fun _ => true) false
    WaitOutcome.timeout (fun _ => true) ["/ws/a.txt"] (some true)
    (by decide) (by decide) rfl rfl rfl rfl (by decide) (Or.inl rfl)
  simpa using h

/-- C9: calling `copy_files` on the empty path list returns `False`, performs
no `_copy_files_direct` invocation (empty trace) and raises no error,
whatever the environment, filesystem, probe and wait outcomes are. -/
theorem copy_files_empty_input
    (env : Env) (fs : String → Bool) (checkW : Bool) (wait : WaitOutcome)
    (directWrite : List String → Bool) (uw : Option Bool) :
    copy_files env fs checkW wait directWrite [] uw = Except.ok (false, []) := rfl

/-- C10: whatever happens inside `check_watcher`'s `try` body — an `OSError`
while writing (with or without the ping file created), the watcher consuming
the ping file, the probe timing out, or an `OSError` while polling — the
`finally` clause unlinks the ping file with `missing_ok=True`, so the probe
never leaves its request file behind in the mailbox directory. -/
theorem check_watcher_removes_ping_file (o : ProbeOutcome) :
    (check_watcher o).pingFileOnDisk = false := by
  cases o <;> rfl

/-- Helper: `collect_files` raises as soon as the path list contains a path
the filesystem reports as non-existent. -/
theorem collect_files_error_of_missing (fsm : FSModel) (l : List String)
    (p : String) (hmem : p ∈ l) (hmiss : fsm.pathExists p = false) :
    ∃ e, collect_files fsm l = Except.error e := by
  induction l with
  | nil => exact absurd hmem (List.not_mem_nil p)
  | cons q rest ih =>
    by_cases hq : fsm.pathExists q = true
    · have hmem' : p ∈ rest := by
        rcases List.mem_cons.mp hmem with h | h
        · rw [h, hq] at hmiss
          cases hmiss
        · exact h
      obtain ⟨e, he⟩ := ih hmem'
      refine ⟨e, ?_⟩
      simp only [collect_files, hq, he]
      rfl
    · refine ⟨.fileNotFound ("Path " ++ pathlibNorm q ++ " does not exist"), ?_⟩
      simp only [collect_files]
      simp at hq
      simp [hq]

/-- C8 counterexample: with a filesystem holding regular files `/a` and `/b`
and nothing else, and a `copy_files` call that would succeed, the CLI run on
the mixed list `["/a", "/missing", "/b"]` does not exit 0: `collect_files`
raises on the missing path and `main` exits 1, contrary to the claim that
partial-success cases exit 0 and list the skipped paths. -/
theorem cli_mixed_batch_does_not_exit_zero :
    cliMain
      ⟨fun s => s == "/a" || s == "/b", fun s => s == "/a" || s == "/b",
        fun _ => false, fun _ => []⟩
      (fun _ => .ret true) ["/a", "/missing", "/b"] ≠ 0 := by
  decide

/-- C8 amended: when the CLI's path list contains any non-existent path, even
among valid ones, there is no partial success: `collect_files` raises
`FileNotFoundError`, `main` catches it, prints the error and exits with
status 1. -/
theorem cli_exits_nonzero_on_missing_path
    (fsm : FSModel) (copyCall : List String → CopyCallOutcome)
    (argPaths : List String) (p : String)
    (hmem : p ∈ argPaths) (hmiss : fsm.pathExists p = false) :
    cliMain fsm copyCall argPaths = 1 := by
  have hne : argPaths ≠ [] := by
    intro h
    rw [h] at hmem
    exact absurd hmem (List.not_mem_nil p)
  obtain ⟨e, he⟩ := collect_files_error_of_missing fsm argPaths p hmem hmiss
  simp [cliMain, hne, he]

/-- C8 amended witness: a concrete mixed list with one valid and one missing
path exits 1. -/
theorem cli_exits_nonzero_on_missing_path_witness :
    cliMain ⟨fun s => s == "/a", fun s => s == "/a", fun _ => false, fun _ => []⟩
      (fun _ => .ret true) ["/a", "/gone"] = 1 :=
  cli_exits_nonzero_on_missing_path
    ⟨fun s => s == "/a", fun s => s == "/a", fun _ => false, fun _ => []⟩
    (fun _ => .ret true) ["/a", "/gone"] "/gone" (by decide) (by decide)

end Fileclip
